import Mathlib

/-!
Shallow embedding of the vdl2-live-table server pipeline (src/server.js).

The embedding models the pure content of the per-datagram pipeline:
address normalization, the reference lookup with unknown-key ledger,
daily rotation with retention pruning, the rolling statistics aggregator
with its minute-bucket timeline, and the assembly, log-append and publish
steps of the UDP message handler.  Wall-clock instants are epoch
milliseconds (Nat, a UTC process is modelled, so the local date stamp of
an instant t is t / 86400000); file paths produced by logPathFor are
identified by their embedded date stamp; the ISO minute string used as a
timeline bucket key is identified with its minute index; JSON objects
built by the enrichment step are modelled as ordered association lists.
Runtime outcomes that the code observes through exceptions (JSON.parse
failure, SQLite lookup errors, append failures) are injected as explicit
inputs, exactly at the points where server.js has a try/catch.
-/

/- =========  Address normalizer (server.js, normalizeHex)  ========= -/

/-- The character class 0-9a-fA-F of the regex in normalizeHex (listed
letters first; only set membership matters). -/
def hexChars : List Char :=
  ['a','b','c','d','e','f','A','B','C','D','E','F',
   '0','1','2','3','4','5','6','7','8','9']

/-- Lowercase hexadecimal digits, the alphabet of normalized keys
(letters first; only set membership matters). -/
def lowerHexChars : List Char :=
  ['a','b','c','d','e','f',
   '0','1','2','3','4','5','6','7','8','9']

/-- ASCII whitespace removed by the trim call. -/
def isWSChar (c : Char) : Bool :=
  c == ' ' || c == '\t' || c == '\n' || c == '\r'

/-- JavaScript String.trim on a character list: drop whitespace at both ends. -/
def jsTrim (l : List Char) : List Char :=
  ((l.dropWhile isWSChar).reverse.dropWhile isWSChar).reverse

/-- JavaScript toLowerCase restricted to ASCII: map A-Z to a-z, keep the rest. -/
def jsToLower (c : Char) : Char :=
  if 'A' ≤ c ∧ c ≤ 'Z' then Char.ofNat (c.toNat + 32) else c

/-- normalizeHex(raw) from server.js: coerce (raw ?? "") to a string, trim,
remove every character outside 0-9a-fA-F, left-pad with zeros to length 6,
lowercase.  An absent input is the none case of the ?? default. -/
def normalizeHex (raw : Option String) : String :=
  let s := raw.getD ""
  let filtered := (jsTrim s.data).filter (fun c => decide (c ∈ hexChars))
  let padded := List.replicate (6 - filtered.length) '0' ++ filtered
  ⟨padded.map jsToLower⟩

/- =========  Daily rotation (dateStamp, logPathFor, rotateIfNeeded)  ========= -/

/-- dateStamp as a function of the current epoch-millisecond instant:
the calendar day index (UTC process assumed, so local midnight is a
multiple of 86400000). -/
def dateStamp (now : Nat) : Nat :=
  now / 86400000

/-- State of the rotating log writer.  Files produced by logPathFor are
identified by their embedded date stamp; a directory entry that is not a
dated log file of this series is the none case and is never pruned.
latestLink is the date the received-latest.jsonl alias resolves to,
none when the alias does not exist. -/
structure RotState where
  currentDate : Nat
  saveFile : Nat
  latestLink : Option Nat
  files : List (Option Nat)
deriving DecidableEq, Repr

/-- Module initialization at lines 51-53 of server.js: currentDate and
SAVE_FILE are set from the wall clock, the alias on disk is whatever a
previous process left there (prevLink) and is not touched. -/
def startupInit (now : Nat) (prevLink : Option Nat) (files : List (Option Nat)) : RotState :=
  { currentDate := dateStamp now, saveFile := dateStamp now,
    latestLink := prevLink, files := files }

/-- updateLatestSymlink: unlink the alias and re-link it at SAVE_FILE. -/
def updateLatestSymlink (st : RotState) : RotState :=
  { st with latestLink := some st.saveFile }

/-- pruneOldLogs: delete every dated log file whose date, taken at UTC
midnight, is before Date.now() minus KEEP_DAYS days (7 * 86400000 ms).
Non-matching directory entries are skipped. -/
def pruneOldLogs (now : Nat) (files : List (Option Nat)) : List (Option Nat) :=
  files.filter (fun f =>
    match f with
    | none => true
    | some d => ! decide (d * 86400000 < now - 604800000))

/-- rotateIfNeeded: when the date stamp changed, switch SAVE_FILE to the
new day, touch the new file so it exists, repoint the alias, and prune. -/
def rotateIfNeeded (now : Nat) (st : RotState) : RotState :=
  let today := dateStamp now
  if today ≠ st.currentDate then
    let st1 : RotState := { st with currentDate := today, saveFile := today }
    let st2 : RotState :=
      { st1 with files := if some today ∈ st1.files then st1.files else st1.files ++ [some today] }
    let st3 : RotState := updateLatestSymlink st2
    { st3 with files := pruneOldLogs now st3.files }
  else st

/- =========  Unknown-key ledger (unknownCache, logUnknownHex)  ========= -/

/-- The process-lifetime unknownCache set together with the keys of the
lines appended to the unknown_hex miss log. -/
structure LedgerState where
  cache : List String
  ledger : List String
deriving DecidableEq, Repr

/-- logUnknownHex: return on a falsy key, return on a cache hit, else
add the key to the cache and append one line to the miss log. -/
def logUnknownHex (u : LedgerState) (hex : String) : LedgerState :=
  if hex = "" then u
  else if hex ∈ u.cache then u
  else { cache := u.cache ++ [hex], ledger := u.ledger ++ [hex] }

/- =========  Reference lookup and enrichment object  ========= -/

/-- JSON value stored in the enrichment object: a string or a boolean. -/
inductive JVal where
  | str : String → JVal
  | bool : Bool → JVal
deriving DecidableEq, Repr

/-- JavaScript (x || "") over a possibly-NULL SQLite text column. -/
def orEmpty (o : Option String) : String :=
  match o with
  | some s => s
  | none => ""

/-- JavaScript double negation (!!x) over a possibly-NULL SQLite integer. -/
def jsTruthyNat (o : Option Nat) : Bool :=
  match o with
  | some n => decide (n ≠ 0)
  | none => false

/-- One row of the aircraft reference table, columns as selected by the
prepared statement in server.js; every column may be NULL. -/
structure Row where
  icao : Option String
  reg : Option String
  icaotype : Option String
  year : Option String
  manufacturer : Option String
  model : Option String
  ownop : Option String
  short_type : Option String
  faa_pia : Option Nat
  faa_ladd : Option Nat
  mil : Option Nat
deriving DecidableEq, Repr

/-- The object literal assigned to enriched on a DB match, as an ordered
association list of its fields. -/
def enrichRow (row : Row) : List (String × JVal) :=
  [("reg", JVal.str (orEmpty row.reg)),
   ("icaotype", JVal.str (orEmpty row.icaotype)),
   ("year", JVal.str (orEmpty row.year)),
   ("manufacturer", JVal.str (orEmpty row.manufacturer)),
   ("model", JVal.str (orEmpty row.model)),
   ("ownop", JVal.str (orEmpty row.ownop)),
   ("short_type", JVal.str (orEmpty row.short_type)),
   ("mil", JVal.bool (jsTruthyNat row.mil)),
   ("faa_pia", JVal.bool (jsTruthyNat row.faa_pia)),
   ("faa_ladd", JVal.bool (jsTruthyNat row.faa_ladd))]

/-- Outcome of stmtLookup.get(hex): a row, no row, or a thrown error
(the catch branch of the lookup block). -/
inductive LookupRes where
  | found : Row → LookupRes
  | notFound : LookupRes
  | ioError : LookupRes

/- =========  Rolling statistics (updateStats, timeline)  ========= -/

/-- One per-minute timeline bucket; the ISO minute string is identified
with its minute index. -/
structure Bucket where
  time : Nat
  count : Nat
deriving DecidableEq, Repr

/-- JavaScript Set.add: append the element unless already present. -/
def setAdd (s : List String) (k : String) : List String :=
  if k ∈ s then s else s ++ [k]

/-- incMap over a JavaScript Map kept as an insertion-ordered list. -/
def incMap (m : List (String × Nat)) (k : String) : List (String × Nat) :=
  if m.any (fun p => p.1 == k) then
    m.map (fun p => if p.1 == k then (p.1, p.2 + 1) else p)
  else m ++ [(k, 1)]

/-- bucket.count++ on the bucket object that sits at the end of the
timeline array. -/
def incLast (l : List Bucket) : List Bucket :=
  match l.getLast? with
  | some b => l.dropLast ++ [⟨b.time, b.count + 1⟩]
  | none => l

/-- The no-matching-last-bucket branch of updateStats: push a fresh
bucket with count 0, shift the oldest entry when the length exceeds
1440, then increment the pushed bucket. -/
def pushBucket (key : Nat) (tl : List Bucket) : List Bucket :=
  let t1 := tl ++ [⟨key, 0⟩]
  let t2 := if 1440 < t1.length then t1.drop 1 else t1
  incLast t2

/-- The timeline update of updateStats: reuse the last bucket when its
minute key matches, otherwise push a new bucket with FIFO eviction. -/
def updateTimeline (key : Nat) (tl : List Bucket) : List Bucket :=
  match tl.getLast? with
  | some b => if b.time = key then tl.dropLast ++ [⟨b.time, b.count + 1⟩] else pushBucket key tl
  | none => pushBucket key tl

/-- The timeline endpoint body: timeline.slice(-120). -/
def timelineResponse (tl : List Bucket) : List Bucket :=
  tl.drop (tl.length - 120)

/-- JavaScript (obj?.key || dflt) over the enrichment association list:
an absent field or an empty string falls back to the default. -/
def objStrOr (obj : List (String × JVal)) (key dflt : String) : String :=
  match obj.lookup key with
  | some (JVal.str s) => if s = "" then dflt else s
  | _ => dflt

/-- The fields of a parsed datagram that the pipeline reads: the raw
source address vdl2.avlc.src.addr, the flight field vdl2.avlc.acars.flight,
and the event time vdl2.t.sec (seconds). -/
structure Msg where
  srcAddr : Option String
  flight : Option String
  tSec : Option Nat
deriving DecidableEq, Repr

/-- The assembled outObj: the parsed message, the enrichment object under
the db key, and the derived ISO timestamp (epoch milliseconds). -/
structure OutObj where
  msg : Msg
  db : List (String × JVal)
  timestamp_iso : Nat
deriving DecidableEq, Repr

/-- The in-memory aggregates of the events module. -/
structure Stats where
  totalPackets : Nat
  uniqueHex : List String
  uniqueFlights : List String
  topOwners : List (String × Nat)
  topModels : List (String × Nat)
  timeline : List Bucket
deriving DecidableEq, Repr

/-- updateStats(pkt): bump the total, collect the normalized address of a
truthy raw address and a truthy flight into the distinct sets, bump the
owner and model frequency maps (missing values bucket under Unknown),
and update the minute timeline at the processing-time minute key. -/
def updateStats (minuteKey : Nat) (pkt : OutObj) (s : Stats) : Stats :=
  let hex :=
    match pkt.msg.srcAddr with
    | some a => if a ≠ "" then normalizeHex (some a) else ""
    | none => ""
  let flight := orEmpty pkt.msg.flight
  let owner := objStrOr pkt.db "ownop" "Unknown"
  let mdl := objStrOr pkt.db "icaotype" "Unknown"
  { totalPackets := s.totalPackets + 1,
    uniqueHex := if hex ≠ "" then setAdd s.uniqueHex hex else s.uniqueHex,
    uniqueFlights := if flight ≠ "" then setAdd s.uniqueFlights flight else s.uniqueFlights,
    topOwners := incMap s.topOwners owner,
    topModels := incMap s.topModels mdl,
    timeline := updateTimeline minuteKey s.timeline }

/- =========  The per-datagram handler (udp.on message)  ========= -/

/-- A received datagram after the JSON.parse try/catch: none is a payload
that failed to parse. -/
structure Datagram where
  parsed : Option Msg
deriving DecidableEq, Repr

/-- The whole mutable server state touched by one datagram.  dbQueries
records the keys passed to stmtLookup.get, dayLog the records appended
to the daily JSONL file, published the frames sent to subscribers. -/
structure ServerState where
  rot : RotState
  unknown : LedgerState
  dbQueries : List String
  dayLog : List OutObj
  stats : Stats
  published : List OutObj
deriving DecidableEq, Repr

/-- timestamp_iso of outObj: the event time when vdl2.t.sec is truthy,
else the wall-clock receive time. -/
def timestampIso (now : Nat) (m : Msg) : Nat :=
  match m.tSec with
  | some s => if s ≠ 0 then s * 1000 else now
  | none => now

/-- The lookup block of the handler: on a truthy key, query the reference
table; a match builds the enrichment object, a miss logs the unknown key,
a thrown lookup error is caught and leaves the enrichment empty.  Returns
the updated state together with the enriched object. -/
def lookupStep (db : String → LookupRes) (st : ServerState) (hex : String) :
    ServerState × List (String × JVal) :=
  if hex ≠ "" then
    let st1 : ServerState := { st with dbQueries := st.dbQueries ++ [hex] }
    match db hex with
    | LookupRes.found row => (st1, enrichRow row)
    | LookupRes.notFound => ({ st1 with unknown := logUnknownHex st1.unknown hex }, [])
    | LookupRes.ioError => (st1, [])
  else (st, [])

/-- The udp.on message handler: rotation check, parse (a failed parse
returns after logging), normalize, lookup, assemble outObj, append to
the daily log (appendOk injects the try/catch outcome), update stats,
publish.  minuteKey is the processing-time minute used by updateStats. -/
def handleMessage (now minuteKey : Nat) (db : String → LookupRes) (appendOk : Bool)
    (st0 : ServerState) (dg : Datagram) : ServerState :=
  let st1 : ServerState := { st0 with rot := rotateIfNeeded now st0.rot }
  match dg.parsed with
  | none => st1
  | some m =>
    let hex := normalizeHex m.srcAddr
    let p := lookupStep db st1 hex
    let out : OutObj := { msg := m, db := p.2, timestamp_iso := timestampIso now m }
    let st2 : ServerState :=
      { p.1 with dayLog := if appendOk then p.1.dayLog ++ [out] else p.1.dayLog }
    let st3 : ServerState := { st2 with stats := updateStats minuteKey out st2.stats }
    { st3 with published := st3.published ++ [out] }

/-- A finite inbound stream processed datagram by datagram. -/
def runStream (now minuteKey : Nat) (db : String → LookupRes) (appendOk : Bool)
    (dgs : List Datagram) (st : ServerState) : ServerState :=
  match dgs with
  | [] => st
  | dg :: rest => runStream now minuteKey db appendOk rest (handleMessage now minuteKey db appendOk st dg)

/-- Process state right after startup: empty cache, ledger, logs, stats. -/
def initState (now : Nat) : ServerState :=
  { rot := startupInit now none [],
    unknown := ⟨[], []⟩,
    dbQueries := [],
    dayLog := [],
    stats := ⟨0, [], [], [], [], []⟩,
    published := [] }

/-- Correctness invariant tying the unknown cache to the miss-log lines
for one key: the key has exactly one ledger line iff it is cached. -/
def unknownInv (k : String) (u : LedgerState) : Prop :=
  u.ledger.count k = if k ∈ u.cache then 1 else 0

/- =========  Concrete fixtures used by witnesses and counterexamples  ========= -/

/-- A datagram whose source address is garbage (no hex digit). -/
def msgZZZ : Msg := ⟨some "ZZZ", none, none⟩

/-- A datagram with a well-formed six-digit source address. -/
def msgAbc : Msg := ⟨some "abc123", none, none⟩

/-- A datagram with no source address at all. -/
def msgNil : Msg := ⟨none, none, none⟩

/-- A reference row with a stored owner value. -/
def rowAcme : Row :=
  { icao := some "abc123", reg := some "N123", icaotype := some "B738",
    year := none, manufacturer := none, model := none,
    ownop := some "Acme Air", short_type := none,
    faa_pia := some 0, faa_ladd := none, mil := some 1 }

/-- A parsed datagram wrapping msgAbc. -/
def dgAbc : Datagram := ⟨some msgAbc⟩

/-- A full timeline: 1440 buckets, all at minute 5. -/
def tlFull : List Bucket := List.replicate 1439 ⟨5, 1⟩ ++ [⟨5, 1⟩]

/-- Statistics state whose timeline is full. -/
def statsFull : Stats := ⟨0, [], [], [], [], tlFull⟩

/-- A bare assembled record with empty enrichment. -/
def pktNil : OutObj := ⟨msgNil, [], 0⟩

/- =========  Lemmas about the address normalizer  ========= -/

theorem jsToLower_mem_lower (c : Char) (h : c ∈ hexChars) : jsToLower c ∈ lowerHexChars := by
  fin_cases h <;> decide

theorem normalizeHex_length (raw : Option String) : 6 ≤ (normalizeHex raw).length := by
  unfold normalizeHex
  simp [String.length]
  omega

theorem normalizeHex_ne_empty (raw : Option String) : ¬ normalizeHex raw = "" := by
  intro h
  have h2 := congrArg String.length h
  have h3 := normalizeHex_length raw
  simp at h2
  omega

theorem normalizeHex_chars (raw : Option String) :
    ∀ c ∈ (normalizeHex raw).data, c ∈ lowerHexChars := by
  intro c hc
  unfold normalizeHex at hc
  rw [List.mem_map] at hc
  rcases hc with ⟨c0, hc0, rfl⟩
  rw [List.mem_append] at hc0
  rcases hc0 with h0 | h0
  · rw [List.mem_replicate] at h0
    rw [h0.2]
    decide
  · rw [List.mem_filter] at h0
    exact jsToLower_mem_lower c0 (of_decide_eq_true h0.2)

/- =========  Claim C2  ========= -/

/-- C2 counterexample: the claim says every input normalizes to a string
matching the anchored six-character pattern, but an input with more than
six hexadecimal digits passes through untruncated, so the output of
a1b2c3d4 has length 8, not 6. -/
theorem c2_counterexample :
    normalizeHex (some "a1b2c3d4") = "a1b2c3d4" ∧
    (normalizeHex (some "a1b2c3d4")).length ≠ 6 := by
  decide

/-- C2 amended: for every input value (string or absent), the output of
the address normalizer is a lowercase hexadecimal string of length at
least 6 - exactly 6 when the input holds at most six hex digits (shorter
inputs are left-zero-padded), while longer hex inputs pass through
untruncated. -/
theorem c2_normalized_shape (raw : Option String) :
    6 ≤ (normalizeHex raw).length ∧
    (normalizeHex raw).data.all (fun c => decide (c ∈ lowerHexChars)) = true := by
  refine ⟨normalizeHex_length raw, ?_⟩
  rw [List.all_eq_true]
  intro c hc
  exact decide_eq_true (normalizeHex_chars raw c hc)

/- =========  Claim C1  ========= -/

/-- C1: the spec says a datagram whose raw address normalizes to the
all-zero key 000000 is treated downstream as having no key: no reference
lookup, no unknown-ledger line, no entry in the distinct-address set.
The code checks truthiness of the normalized key, which is the nonempty
string 000000, so the branch that skips the lookup is unreachable: at the
garbage address ZZZ the handler queries the reference table for 000000,
appends 000000 to the unknown-key ledger, and adds 000000 to the
distinct-address set behind uniqueAircraft.  The unreachable skip branch
and its diagnostic message show the skip was the intent, so this is a
slip in the code rather than in the claim. -/
theorem c1_zero_key_not_skipped :
    (handleMessage 0 0 (fun _ => LookupRes.notFound) true (initState 0) ⟨some msgZZZ⟩).dbQueries
      = ["000000"] ∧
    (handleMessage 0 0 (fun _ => LookupRes.notFound) true (initState 0) ⟨some msgZZZ⟩).unknown.ledger
      = ["000000"] ∧
    (handleMessage 0 0 (fun _ => LookupRes.notFound) true (initState 0) ⟨some msgZZZ⟩).stats.uniqueHex
      = ["000000"] := by
  decide

/- =========  Claim C6  ========= -/

/-- C6: a datagram whose payload fails to parse is dropped entirely: the
handler performs no lookup, leaves the unknown-key ledger, the daily log,
every statistics aggregate and the published stream untouched, and
returns normally (only the independent rotation check may have run). -/
theorem c6_parse_failure_is_noop (now mk : Nat) (db : String → LookupRes) (ok : Bool)
    (st : ServerState) :
    (handleMessage now mk db ok st ⟨none⟩).dbQueries = st.dbQueries ∧
    (handleMessage now mk db ok st ⟨none⟩).unknown = st.unknown ∧
    (handleMessage now mk db ok st ⟨none⟩).dayLog = st.dayLog ∧
    (handleMessage now mk db ok st ⟨none⟩).stats = st.stats ∧
    (handleMessage now mk db ok st ⟨none⟩).published = st.published := by
  unfold handleMessage
  simp

/- =========  Claim C10  ========= -/

/-- C10 counterexample: the claim says the timeline endpoint returns the
buckets of the last 120 minutes and drops older buckets.  The endpoint
returns the last 120 array entries instead: a timeline whose single
bucket was created at minute 0 is returned unchanged at query minute
100000, although that bucket is far older than 120 minutes. -/
theorem c10_counterexample :
    timelineResponse (updateTimeline 0 []) = [⟨0, 1⟩] ∧
    (⟨0, 1⟩ : Bucket).time + 120 < 100000 := by
  decide

/-- C10 amended: the timeline endpoint returns the most recent
min(120, length) buckets of the minute series - the last 120 array
entries, which coincide with the last 120 minutes only when every one of
those minutes has a bucket. -/
theorem c10_last_entries (tl : List Bucket) :
    (timelineResponse tl).length = min 120 tl.length ∧
    tl.take (tl.length - 120) ++ timelineResponse tl = tl := by
  unfold timelineResponse
  constructor
  · rw [List.length_drop]
    omega
  · exact List.take_append_drop _ tl

/- =========  Lemmas about rotation and pruning  ========= -/

theorem rotateIfNeeded_changed (now : Nat) (st : RotState) (h : dateStamp now ≠ st.currentDate) :
    rotateIfNeeded now st =
      { currentDate := dateStamp now, saveFile := dateStamp now,
        latestLink := some (dateStamp now),
        files := pruneOldLogs now
          (if some (dateStamp now) ∈ st.files then st.files else st.files ++ [some (dateStamp now)]) } := by
  unfold rotateIfNeeded updateLatestSymlink
  simp [h]

theorem mem_pruneOldLogs (now d : Nat) (files : List (Option Nat)) :
    some d ∈ pruneOldLogs now files ↔
      some d ∈ files ∧ ¬ d * 86400000 < now - 604800000 := by
  unfold pruneOldLogs
  rw [List.mem_filter]
  simp

theorem none_mem_pruneOldLogs (now : Nat) (files : List (Option Nat)) :
    none ∈ pruneOldLogs now files ↔ none ∈ files := by
  unfold pruneOldLogs
  rw [List.mem_filter]
  simp

theorem today_not_pruned (now : Nat) :
    ¬ (now / 86400000) * 86400000 < now - 604800000 := by
  have h1 := Nat.div_add_mod now 86400000
  have h2 : now % 86400000 < 86400000 := Nat.mod_lt now (by norm_num)
  omega

/- =========  Claim C5  ========= -/

/-- C5 counterexample: the claim says the alias resolves to the current
day file at every point of the process lifetime.  Startup sets the
current date and file but never touches the alias, and the rotation
check does nothing while the date stamp is unchanged: a process started
at noon of day 10000 behind an alias left on day 9999 keeps the stale
alias for the whole day. -/
theorem c5_counterexample :
    (startupInit 864000000000 (some 9999) []).latestLink
      ≠ some ((startupInit 864000000000 (some 9999) []).saveFile) ∧
    rotateIfNeeded 864000000000 (startupInit 864000000000 (some 9999) [])
      = startupInit 864000000000 (some 9999) [] := by
  decide

/-- C5 amended: after every rotation that observes a changed date stamp
the alias resolves to the new current day file; between process start
and the first such rotation the alias keeps whatever target a previous
process left. -/
theorem c5_alias_after_rotation (now : Nat) (st : RotState)
    (h : dateStamp now ≠ st.currentDate) :
    (rotateIfNeeded now st).latestLink = some ((rotateIfNeeded now st).saveFile) := by
  rw [rotateIfNeeded_changed now st h]

/-- C5 witness: a concrete day change repoints the alias at the new file. -/
theorem c5_witness :
    dateStamp 86400000 ≠ (startupInit 0 none []).currentDate ∧
    (rotateIfNeeded 86400000 (startupInit 0 none [])).latestLink
      = some ((rotateIfNeeded 86400000 (startupInit 0 none [])).saveFile) :=
  ⟨by decide, c5_alias_after_rotation 86400000 (startupInit 0 none []) (by decide)⟩

/- =========  Claim C8  ========= -/

/-- C8 counterexample: the claim says pruning measures the 7-day window
from local midnight, so at noon of day 10000 the file dated day 9993
(exactly 7 days back) is still inside the window and must remain.  The
code measures the window from the current instant Date.now(): at
now = 864043200000 (noon of day 10000) the cutoff is 863438400000,
the file dated 9993 has midnight 863395200000 < cutoff and is deleted,
although the midnight-measured rule would keep it. -/
theorem c8_counterexample :
    (rotateIfNeeded 864043200000 ⟨9999, 9999, some 9999, [some 9993]⟩).files
      = [some 10000] ∧
    ¬ 9993 * 86400000 < dateStamp 864043200000 * 86400000 - 604800000 := by
  decide

/-- C8 amended: when rotateIfNeeded observes a changed date stamp it
switches appending to the new day file, ensures that file exists,
repoints the alias at it, and deletes exactly the dated log files whose
embedded date, taken at UTC midnight, is more than 7 * 24h before the
current instant (not before local midnight); files inside that window,
including the fresh file, remain, and unrelated directory entries are
untouched. -/
theorem c8_rotation_behaviour (now d : Nat) (st : RotState)
    (h : dateStamp now ≠ st.currentDate) :
    (rotateIfNeeded now st).currentDate = dateStamp now ∧
    (rotateIfNeeded now st).saveFile = dateStamp now ∧
    (rotateIfNeeded now st).latestLink = some (dateStamp now) ∧
    some (dateStamp now) ∈ (rotateIfNeeded now st).files ∧
    (some d ∈ (rotateIfNeeded now st).files ↔
      (some d ∈ st.files ∨ d = dateStamp now) ∧ ¬ d * 86400000 < now - 604800000) ∧
    (none ∈ (rotateIfNeeded now st).files ↔ none ∈ st.files) := by
  rw [rotateIfNeeded_changed now st h]
  refine ⟨rfl, rfl, rfl, ?_, ?_, ?_⟩
  · rw [mem_pruneOldLogs]
    constructor
    · split
      · assumption
      · exact List.mem_append_right _ (by simp)
    · exact today_not_pruned now
  · rw [mem_pruneOldLogs]
    constructor
    · rintro ⟨hm, hcut⟩
      refine ⟨?_, hcut⟩
      revert hm
      split
      · rename_i hin
        intro hm
        left
        exact hm
      · intro hm
        rcases List.mem_append.mp hm with hm2 | hm2
        · left; exact hm2
        · right
          simpa using hm2
    · rintro ⟨hd, hcut⟩
      refine ⟨?_, hcut⟩
      rcases hd with hd | rfl
      · split
        · exact hd
        · exact List.mem_append_left _ hd
      · split
        · assumption
        · exact List.mem_append_right _ (by simp)
  · rw [none_mem_pruneOldLogs]
    split
    · exact Iff.rfl
    · simp

/-- C8 witness: a concrete rotation at noon of day 10000 over a directory
holding the file of day 9994 (kept), the file of day 9992 (pruned) and an
unrelated entry. -/
theorem c8_witness :
    dateStamp 864043200000 ≠ (⟨9999, 9999, some 9999, [some 9994, some 9992, none]⟩ : RotState).currentDate ∧
    (rotateIfNeeded 864043200000 ⟨9999, 9999, some 9999, [some 9994, some 9992, none]⟩).currentDate
      = dateStamp 864043200000 ∧
    (rotateIfNeeded 864043200000 ⟨9999, 9999, some 9999, [some 9994, some 9992, none]⟩).saveFile
      = dateStamp 864043200000 ∧
    (rotateIfNeeded 864043200000 ⟨9999, 9999, some 9999, [some 9994, some 9992, none]⟩).latestLink
      = some (dateStamp 864043200000) ∧
    some (dateStamp 864043200000)
      ∈ (rotateIfNeeded 864043200000 ⟨9999, 9999, some 9999, [some 9994, some 9992, none]⟩).files ∧
    (some 9994 ∈ (rotateIfNeeded 864043200000 ⟨9999, 9999, some 9999, [some 9994, some 9992, none]⟩).files ↔
      (some 9994 ∈ [some 9994, some 9992, (none : Option Nat)] ∨ 9994 = dateStamp 864043200000) ∧
      ¬ 9994 * 86400000 < 864043200000 - 604800000) ∧
    (none ∈ (rotateIfNeeded 864043200000 ⟨9999, 9999, some 9999, [some 9994, some 9992, none]⟩).files ↔
      none ∈ [some 9994, some 9992, (none : Option Nat)]) :=
  ⟨by decide,
    c8_rotation_behaviour 864043200000 9994 ⟨9999, 9999, some 9999, [some 9994, some 9992, none]⟩
      (by decide)⟩

/- =========  Lemmas about the minute timeline  ========= -/

theorem incLast_concat (l : List Bucket) (b : Bucket) :
    incLast (l ++ [b]) = l ++ [⟨b.time, b.count + 1⟩] := by
  unfold incLast
  rw [List.getLast?_concat, List.dropLast_concat]

theorem pushBucket_eq (key : Nat) (tl : List Bucket) :
    pushBucket key tl =
      incLast (if 1440 < (tl ++ [(⟨key, 0⟩ : Bucket)]).length
        then (tl ++ [(⟨key, 0⟩ : Bucket)]).drop 1
        else tl ++ [(⟨key, 0⟩ : Bucket)]) :=
  rfl

theorem pushBucket_small (key : Nat) (tl : List Bucket) (h : tl.length + 1 ≤ 1440) :
    pushBucket key tl = tl ++ [⟨key, 1⟩] := by
  rw [pushBucket_eq, if_neg (by simp; omega)]
  exact incLast_concat tl ⟨key, 0⟩

theorem pushBucket_full (key : Nat) (tl : List Bucket) (h : 1440 ≤ tl.length) :
    pushBucket key tl = tl.drop 1 ++ [⟨key, 1⟩] := by
  rw [pushBucket_eq, if_pos (by simp; omega), List.drop_append_of_le_length (by omega)]
  exact incLast_concat (tl.drop 1) ⟨key, 0⟩

theorem pushBucket_length (key : Nat) (tl : List Bucket) (h : tl.length ≤ 1440) :
    (pushBucket key tl).length ≤ 1440 := by
  by_cases hc : tl.length + 1 ≤ 1440
  · rw [pushBucket_small key tl hc]
    simp
    omega
  · rw [pushBucket_full key tl (by omega)]
    simp
    omega

theorem updateTimeline_last_match (key : Nat) (tl : List Bucket) (b : Bucket)
    (hl : tl.getLast? = some b) :
    updateTimeline key tl =
      (if b.time = key then tl.dropLast ++ [(⟨b.time, b.count + 1⟩ : Bucket)]
       else pushBucket key tl) := by
  unfold updateTimeline
  rw [hl]

theorem updateTimeline_last_none (key : Nat) (tl : List Bucket)
    (hl : tl.getLast? = none) :
    updateTimeline key tl = pushBucket key tl := by
  unfold updateTimeline
  rw [hl]

theorem updateTimeline_length (key : Nat) (tl : List Bucket) (h : tl.length ≤ 1440) :
    (updateTimeline key tl).length ≤ 1440 := by
  cases hl : tl.getLast? with
  | none =>
    rw [updateTimeline_last_none key tl hl]
    exact pushBucket_length key tl h
  | some b =>
    rw [updateTimeline_last_match key tl b hl]
    by_cases hbt : b.time = key
    · rw [if_pos hbt]
      have hne : tl ≠ [] := by
        intro he
        rw [he] at hl
        simp at hl
      have hpos : 0 < tl.length := List.length_pos.mpr hne
      simp [List.length_dropLast]
      omega
    · rw [if_neg hbt]
      exact pushBucket_length key tl h

theorem updateTimeline_evict (key : Nat) (tl : List Bucket) (b : Bucket)
    (h1440 : tl.length = 1440) (hl : tl.getLast? = some b) (hne : b.time ≠ key) :
    updateTimeline key tl = tl.drop 1 ++ [⟨key, 1⟩] := by
  rw [updateTimeline_last_match key tl b hl, if_neg hne]
  exact pushBucket_full key tl (by omega)

/- =========  Claim C9  ========= -/

/-- C9: after every updateStats call the minute timeline holds at most
1440 buckets, and when a fresh minute key would push the length past the
bound the evicted bucket is the oldest one (the head of the sequence). -/
theorem c9_timeline_bound (mk : Nat) (pkt : OutObj) (s : Stats)
    (h : s.timeline.length ≤ 1440) :
    (updateStats mk pkt s).timeline.length ≤ 1440 ∧
    (∀ b : Bucket, s.timeline.length = 1440 → s.timeline.getLast? = some b → b.time ≠ mk →
      (updateStats mk pkt s).timeline = s.timeline.drop 1 ++ [⟨mk, 1⟩]) := by
  have ht : (updateStats mk pkt s).timeline = updateTimeline mk s.timeline := rfl
  rw [ht]
  exact ⟨updateTimeline_length mk s.timeline h,
    fun b h1 h2 h3 => updateTimeline_evict mk s.timeline b h1 h2 h3⟩

/-- C9 witness: a full 1440-bucket timeline, all buckets at minute 5,
receives a packet at minute 7: the length stays 1440 via eviction of the
oldest bucket. -/
theorem c9_witness :
    statsFull.timeline.length ≤ 1440 ∧
    statsFull.timeline.length = 1440 ∧
    statsFull.timeline.getLast? = some ⟨5, 1⟩ ∧
    (⟨5, 1⟩ : Bucket).time ≠ 7 ∧
    (updateStats 7 pktNil statsFull).timeline.length ≤ 1440 ∧
    (updateStats 7 pktNil statsFull).timeline = statsFull.timeline.drop 1 ++ [⟨7, 1⟩] := by
  have hlen : statsFull.timeline.length = 1440 := by
    show tlFull.length = 1440
    unfold tlFull
    rw [List.length_append, List.length_replicate, List.length_singleton]
  have hlast : statsFull.timeline.getLast? = some ⟨5, 1⟩ := by
    show tlFull.getLast? = some ⟨5, 1⟩
    unfold tlFull
    exact List.getLast?_concat _
  have h := c9_timeline_bound 7 pktNil statsFull (by omega)
  exact ⟨by omega, hlen, hlast, by decide, h.1, h.2 ⟨5, 1⟩ hlen hlast (by decide)⟩

/- =========  Lemmas about the lookup block and the handler  ========= -/

theorem lookupStep_found (db : String → LookupRes) (st : ServerState) (hex : String) (row : Row)
    (hhex : ¬ hex = "") (hdb : db hex = LookupRes.found row) :
    lookupStep db st hex = ({ st with dbQueries := st.dbQueries ++ [hex] }, enrichRow row) := by
  unfold lookupStep
  rw [if_pos hhex, hdb]

theorem lookupStep_notFound (db : String → LookupRes) (st : ServerState) (hex : String)
    (hhex : ¬ hex = "") (hdb : db hex = LookupRes.notFound) :
    lookupStep db st hex =
      ({ st with dbQueries := st.dbQueries ++ [hex],
                 unknown := logUnknownHex st.unknown hex }, []) := by
  unfold lookupStep
  rw [if_pos hhex, hdb]

theorem lookupStep_ioError (db : String → LookupRes) (st : ServerState) (hex : String)
    (hhex : ¬ hex = "") (hdb : db hex = LookupRes.ioError) :
    lookupStep db st hex = ({ st with dbQueries := st.dbQueries ++ [hex] }, []) := by
  unfold lookupStep
  rw [if_pos hhex, hdb]

theorem handleMessage_some_eq (now mk : Nat) (db : String → LookupRes) (ok : Bool)
    (st : ServerState) (m : Msg) :
    handleMessage now mk db ok st ⟨some m⟩ =
      { rot := (lookupStep db { st with rot := rotateIfNeeded now st.rot } (normalizeHex m.srcAddr)).1.rot,
        unknown := (lookupStep db { st with rot := rotateIfNeeded now st.rot } (normalizeHex m.srcAddr)).1.unknown,
        dbQueries := (lookupStep db { st with rot := rotateIfNeeded now st.rot } (normalizeHex m.srcAddr)).1.dbQueries,
        dayLog := if ok
          then (lookupStep db { st with rot := rotateIfNeeded now st.rot } (normalizeHex m.srcAddr)).1.dayLog
            ++ [⟨m, (lookupStep db { st with rot := rotateIfNeeded now st.rot } (normalizeHex m.srcAddr)).2, timestampIso now m⟩]
          else (lookupStep db { st with rot := rotateIfNeeded now st.rot } (normalizeHex m.srcAddr)).1.dayLog,
        stats := updateStats mk
          ⟨m, (lookupStep db { st with rot := rotateIfNeeded now st.rot } (normalizeHex m.srcAddr)).2, timestampIso now m⟩
          (lookupStep db { st with rot := rotateIfNeeded now st.rot } (normalizeHex m.srcAddr)).1.stats,
        published := (lookupStep db { st with rot := rotateIfNeeded now st.rot } (normalizeHex m.srcAddr)).1.published
          ++ [⟨m, (lookupStep db { st with rot := rotateIfNeeded now st.rot } (normalizeHex m.srcAddr)).2, timestampIso now m⟩] } :=
  rfl

/- =========  Claim C3  ========= -/

/-- C3 counterexample: the claim says a message whose key misses the
reference table carries an enrichment object with every AircraftRecord
field set to the empty string and every flag false.  The code publishes
the message with the empty object (no fields at all): at a miss for
abc123 the published enrichment object is the empty association list,
so no field carries an empty string. -/
theorem c3_counterexample :
    (handleMessage 0 0 (fun _ => LookupRes.notFound) true (initState 0)
        ⟨some msgAbc⟩).published.map OutObj.db = [[]] := by
  decide

/-- C3 amended: for a key found in the reference table the assembled
message carries the enrichment object built from the stored row, whose
ownop field holds the stored owner value; for a key absent from the
table the assembled message carries the empty enrichment object with no
fields (consumers read the missing fields as empty or false through
JavaScript defaulting). -/
theorem c3_enrichment_assembly (now mk : Nat) (db : String → LookupRes) (ok : Bool)
    (st : ServerState) (m : Msg) :
    (∀ row : Row, ∀ s : String,
      db (normalizeHex m.srcAddr) = LookupRes.found row → row.ownop = some s →
      (handleMessage now mk db ok st ⟨some m⟩).published
          = st.published ++ [⟨m, enrichRow row, timestampIso now m⟩] ∧
        ("ownop", JVal.str s) ∈ enrichRow row) ∧
    (db (normalizeHex m.srcAddr) = LookupRes.notFound →
      (handleMessage now mk db ok st ⟨some m⟩).published
          = st.published ++ [⟨m, [], timestampIso now m⟩]) := by
  constructor
  · intro row s hdb hown
    constructor
    · rw [handleMessage_some_eq,
        lookupStep_found db _ _ row (normalizeHex_ne_empty m.srcAddr) hdb]
    · simp [enrichRow, hown, orEmpty]
  · intro hdb
    rw [handleMessage_some_eq,
      lookupStep_notFound db _ _ (normalizeHex_ne_empty m.srcAddr) hdb]

/-- C3 witness: the found half at a row storing owner Acme Air, the
absent half at an always-missing table. -/
theorem c3_witness :
    (fun _ : String => LookupRes.found rowAcme) (normalizeHex msgAbc.srcAddr)
      = LookupRes.found rowAcme ∧
    rowAcme.ownop = some "Acme Air" ∧
    ((handleMessage 0 0 (fun _ => LookupRes.found rowAcme) true (initState 0)
          ⟨some msgAbc⟩).published
        = (initState 0).published ++ [⟨msgAbc, enrichRow rowAcme, timestampIso 0 msgAbc⟩] ∧
      ("ownop", JVal.str "Acme Air") ∈ enrichRow rowAcme) ∧
    (fun _ : String => LookupRes.notFound) (normalizeHex msgAbc.srcAddr)
      = LookupRes.notFound ∧
    (handleMessage 0 0 (fun _ => LookupRes.notFound) true (initState 0)
        ⟨some msgAbc⟩).published
      = (initState 0).published ++ [⟨msgAbc, [], timestampIso 0 msgAbc⟩] :=
  ⟨rfl, rfl,
   (c3_enrichment_assembly 0 0 (fun _ => LookupRes.found rowAcme) true (initState 0) msgAbc).1
      rowAcme "Acme Air" rfl rfl,
   rfl,
   (c3_enrichment_assembly 0 0 (fun _ => LookupRes.notFound) true (initState 0) msgAbc).2 rfl⟩

/- =========  Claim C7  ========= -/

/-- C7: a reference-lookup error is caught inside the handler: the
handler still returns normally (it is a total function of the injected
outcome) and the message proceeds through assembly, the daily-log
append, the statistics update and the publish step with the empty
enrichment object, while the unknown-key ledger is left untouched. -/
theorem c7_lookup_error_recovered (now mk : Nat) (db : String → LookupRes) (ok : Bool)
    (st : ServerState) (m : Msg)
    (h : db (normalizeHex m.srcAddr) = LookupRes.ioError) :
    handleMessage now mk db ok st ⟨some m⟩ =
      { rot := rotateIfNeeded now st.rot,
        unknown := st.unknown,
        dbQueries := st.dbQueries ++ [normalizeHex m.srcAddr],
        dayLog := if ok then st.dayLog ++ [⟨m, [], timestampIso now m⟩] else st.dayLog,
        stats := updateStats mk ⟨m, [], timestampIso now m⟩ st.stats,
        published := st.published ++ [⟨m, [], timestampIso now m⟩] } := by
  rw [handleMessage_some_eq,
    lookupStep_ioError db _ _ (normalizeHex_ne_empty m.srcAddr) h]

/-- C7 witness: a concrete datagram processed against a reference table
that always throws still flows to the log, stats and publish steps. -/
theorem c7_witness :
    (fun _ : String => LookupRes.ioError) (normalizeHex msgNil.srcAddr)
      = LookupRes.ioError ∧
    handleMessage 0 0 (fun _ => LookupRes.ioError) true (initState 0) ⟨some msgNil⟩ =
      { rot := rotateIfNeeded 0 (initState 0).rot,
        unknown := (initState 0).unknown,
        dbQueries := (initState 0).dbQueries ++ [normalizeHex msgNil.srcAddr],
        dayLog := if true then (initState 0).dayLog ++ [⟨msgNil, [], timestampIso 0 msgNil⟩]
          else (initState 0).dayLog,
        stats := updateStats 0 ⟨msgNil, [], timestampIso 0 msgNil⟩ (initState 0).stats,
        published := (initState 0).published ++ [⟨msgNil, [], timestampIso 0 msgNil⟩] } :=
  ⟨rfl, c7_lookup_error_recovered 0 0 (fun _ => LookupRes.ioError) true (initState 0) msgNil rfl⟩

/- =========  Lemmas about the unknown-key ledger  ========= -/

theorem logUnknownHex_inv (k hx : String) (u : LedgerState) (h : unknownInv k u) :
    unknownInv k (logUnknownHex u hx) := by
  unfold logUnknownHex
  by_cases h1 : hx = ""
  · rw [if_pos h1]
    exact h
  · rw [if_neg h1]
    by_cases h2 : hx ∈ u.cache
    · rw [if_pos h2]
      exact h
    · rw [if_neg h2]
      unfold unknownInv at h ⊢
      by_cases hk : k = hx
      · subst hk
        rw [if_neg h2] at h
        simp [List.count_append, h, List.mem_append]
      · simp only [List.count_append, List.mem_append, List.mem_singleton]
        have hc : List.count k [hx] = 0 := by
          simp [List.count_singleton, hk]
        rw [hc]
        have hm : (k ∈ u.cache ∨ k = hx) ↔ k ∈ u.cache := by
          constructor
          · rintro (hmm | rfl)
            · exact hmm
            · exact absurd rfl hk
          · exact Or.inl
        simp only [hm]
        omega

theorem logUnknownHex_cache_mono (k hx : String) (u : LedgerState) (h : k ∈ u.cache) :
    k ∈ (logUnknownHex u hx).cache := by
  unfold logUnknownHex
  by_cases h1 : hx = ""
  · rw [if_pos h1]; exact h
  · rw [if_neg h1]
    by_cases h2 : hx ∈ u.cache
    · rw [if_pos h2]; exact h
    · rw [if_neg h2]
      exact List.mem_append_left _ h

theorem logUnknownHex_self_mem (k : String) (u : LedgerState) (h : ¬ k = "") :
    k ∈ (logUnknownHex u k).cache := by
  unfold logUnknownHex
  rw [if_neg h]
  by_cases h2 : k ∈ u.cache
  · rw [if_pos h2]; exact h2
  · rw [if_neg h2]
    exact List.mem_append_right _ (by simp)

theorem handleMessage_unknown_cases (now mk : Nat) (db : String → LookupRes) (ok : Bool)
    (st : ServerState) (dg : Datagram) :
    (handleMessage now mk db ok st dg).unknown = st.unknown ∨
    ∃ hx, (handleMessage now mk db ok st dg).unknown = logUnknownHex st.unknown hx := by
  obtain ⟨pd⟩ := dg
  cases pd with
  | none => left; rfl
  | some m =>
    rw [handleMessage_some_eq]
    cases hdb : db (normalizeHex m.srcAddr) with
    | found row =>
      rw [lookupStep_found db _ _ row (normalizeHex_ne_empty m.srcAddr) hdb]
      left; rfl
    | notFound =>
      rw [lookupStep_notFound db _ _ (normalizeHex_ne_empty m.srcAddr) hdb]
      right
      exact ⟨normalizeHex m.srcAddr, rfl⟩
    | ioError =>
      rw [lookupStep_ioError db _ _ (normalizeHex_ne_empty m.srcAddr) hdb]
      left; rfl

theorem handleMessage_inv (now mk : Nat) (db : String → LookupRes) (ok : Bool)
    (st : ServerState) (dg : Datagram) (k : String) (h : unknownInv k st.unknown) :
    unknownInv k (handleMessage now mk db ok st dg).unknown := by
  rcases handleMessage_unknown_cases now mk db ok st dg with he | ⟨hx, he⟩ <;> rw [he]
  · exact h
  · exact logUnknownHex_inv k hx st.unknown h

theorem handleMessage_cache_mono (now mk : Nat) (db : String → LookupRes) (ok : Bool)
    (st : ServerState) (dg : Datagram) (k : String) (h : k ∈ st.unknown.cache) :
    k ∈ (handleMessage now mk db ok st dg).unknown.cache := by
  rcases handleMessage_unknown_cases now mk db ok st dg with he | ⟨hx, he⟩ <;> rw [he]
  · exact h
  · exact logUnknownHex_cache_mono k hx st.unknown h

theorem handleMessage_miss_mem (now mk : Nat) (db : String → LookupRes) (ok : Bool)
    (st : ServerState) (m : Msg) (k : String)
    (hk : normalizeHex m.srcAddr = k) (hdb : db k = LookupRes.notFound) :
    k ∈ (handleMessage now mk db ok st ⟨some m⟩).unknown.cache := by
  subst hk
  rw [handleMessage_some_eq,
    lookupStep_notFound db _ _ (normalizeHex_ne_empty m.srcAddr) hdb]
  exact logUnknownHex_self_mem _ _ (normalizeHex_ne_empty m.srcAddr)

theorem runStream_nil (now mk : Nat) (db : String → LookupRes) (ok : Bool)
    (st : ServerState) : runStream now mk db ok [] st = st :=
  rfl

theorem runStream_cons (now mk : Nat) (db : String → LookupRes) (ok : Bool)
    (d : Datagram) (ds : List Datagram) (st : ServerState) :
    runStream now mk db ok (d :: ds) st
      = runStream now mk db ok ds (handleMessage now mk db ok st d) :=
  rfl

theorem runStream_inv (now mk : Nat) (db : String → LookupRes) (ok : Bool)
    (dgs : List Datagram) (st : ServerState) (k : String) (h : unknownInv k st.unknown) :
    unknownInv k (runStream now mk db ok dgs st).unknown := by
  induction dgs generalizing st with
  | nil => exact h
  | cons d ds ih => exact ih _ (handleMessage_inv now mk db ok st d k h)

theorem runStream_cache_mono (now mk : Nat) (db : String → LookupRes) (ok : Bool)
    (dgs : List Datagram) (st : ServerState) (k : String) (h : k ∈ st.unknown.cache) :
    k ∈ (runStream now mk db ok dgs st).unknown.cache := by
  induction dgs generalizing st with
  | nil => exact h
  | cons d ds ih => exact ih _ (handleMessage_cache_mono now mk db ok st d k h)

theorem runStream_miss_mem (now mk : Nat) (db : String → LookupRes) (ok : Bool)
    (dgs : List Datagram) (st : ServerState) (k : String)
    (h : ∃ dg ∈ dgs, ∃ m, dg.parsed = some m ∧ normalizeHex m.srcAddr = k ∧
      db k = LookupRes.notFound) :
    k ∈ (runStream now mk db ok dgs st).unknown.cache := by
  induction dgs generalizing st with
  | nil =>
    rcases h with ⟨dg, hdg, -⟩
    simp at hdg
  | cons d ds ih =>
    rcases h with ⟨dg, hdg, m, hp, hk, hdb⟩
    rcases List.mem_cons.mp hdg with rfl | hdg2
    · rw [runStream_cons]
      refine runStream_cache_mono now mk db ok ds _ k ?_
      obtain ⟨pd⟩ := dg
      simp only at hp
      subst hp
      exact handleMessage_miss_mem now mk db ok st m k hk hdb
    · rw [runStream_cons]
      exact ih _ ⟨dg, hdg2, m, hp, hk, hdb⟩

/- =========  Claim C4  ========= -/

/-- C4: over any finite inbound stream processed from process start, a
key that is absent from the reference table and occurs in at least one
parsed datagram ends up with exactly one line in the unknown-key ledger,
no matter how many datagrams carry it: repeated misses of a cached key
append nothing. -/
theorem c4_unknown_logged_exactly_once (now mk : Nat) (db : String → LookupRes) (ok : Bool)
    (dgs : List Datagram) (k : String) (dg : Datagram) (m : Msg)
    (hdg : dg ∈ dgs) (hp : dg.parsed = some m) (hk : normalizeHex m.srcAddr = k)
    (hdb : db k = LookupRes.notFound) :
    ((runStream now mk db ok dgs (initState now)).unknown.ledger).count k = 1 := by
  have h0 : unknownInv k (initState now).unknown := by
    unfold unknownInv initState
    simp
  have h1 := runStream_inv now mk db ok dgs (initState now) k h0
  have h2 := runStream_miss_mem now mk db ok dgs (initState now) k
    ⟨dg, hdg, m, hp, hk, hdb⟩
  unfold unknownInv at h1
  rwa [if_pos h2] at h1

/-- C4 witness: the same unknown key arriving twice yields a single
ledger line. -/
theorem c4_witness :
    dgAbc ∈ [dgAbc, dgAbc] ∧
    dgAbc.parsed = some msgAbc ∧
    normalizeHex msgAbc.srcAddr = "abc123" ∧
    (fun _ : String => LookupRes.notFound) "abc123" = LookupRes.notFound ∧
    ((runStream 0 0 (fun _ => LookupRes.notFound) true [dgAbc, dgAbc]
        (initState 0)).unknown.ledger).count "abc123" = 1 :=
  ⟨List.mem_cons_self _ _, rfl, by decide, rfl,
    c4_unknown_logged_exactly_once 0 0 (fun _ => LookupRes.notFound) true
      [dgAbc, dgAbc] "abc123" dgAbc msgAbc (List.mem_cons_self _ _) rfl (by decide) rfl⟩
